import Mathlib

/-!
Verification development for the AssetForge Blender-to-Unreal export add-on.

The definitions below are a shallow embedding of the Python source:
  - src/validation/validation_types.py  (ValidationContext, ValidationRule)
  - src/validation/validate_asset.py    (_build_context, generate_validation_data)
  - src/validation/error_checks.py      (validate_mesh_manifold, validate_modular, _is_multiple)
  - src/validation/warning_checks.py    (validate_texture_aspect_ratio, ...)
  - src/export/mesh_metadata.py         (classifier, get_material_data, stats)
  - src/metadata/statistics.py          (get_evaluated_mesh_stats)
  - src/asset_forge.py                  (AF_OT_export.execute ingestion gating)

Python machine-level conventions used throughout the embedding:
  - Python exceptions are modelled with `Except PyErr`.
  - Python floats are modelled by rationals; at every concrete input used in a
    theorem below the float computation of the source is exact, so the
    rational model agrees with the IEEE-754 evaluation.
  - bpy object identity (used by `dict.fromkeys` deduplication) is modelled
    by an explicit `id : Nat` field on materials and images.
-/

namespace AssetForge

/-- Python exceptions that the embedded code can raise. -/
inductive PyErr where
  | typeError
  | attributeError
  | assertionError
  | stopIteration
  | zeroDivisionError
  | unboundLocalError
  | runtimeError
deriving DecidableEq, Repr

instance {ε α : Type} [DecidableEq ε] [DecidableEq α] : DecidableEq (Except ε α) := fun a b =>
  match a, b with
  | Except.error x, Except.error y =>
      if h : x = y then Decidable.isTrue (by rw [h])
      else Decidable.isFalse (fun hc => h (by injection hc))
  | Except.ok x, Except.ok y =>
      if h : x = y then Decidable.isTrue (by rw [h])
      else Decidable.isFalse (fun hc => h (by injection hc))
  | Except.error _, Except.ok _ => Decidable.isFalse (fun hc => Except.noConfusion hc)
  | Except.ok _, Except.error _ => Decidable.isFalse (fun hc => Except.noConfusion hc)

/-! ## Name normalization (module `src/validation/naming.py`)

The `naming` module is imported by `src/__init__.py`, `warning_checks.py` and
`mesh_metadata.py` but its file is not part of the sources available here, so
it is modelled from the spec (section 4.1). -/

/-- Modelled from the spec: a character legal in the target engine's asset
names.  The spec only says illegal characters are stripped/replaced; we take
the standard Unreal-legal set of ASCII alphanumerics plus underscore. -/
def legal_char (c : Char) : Bool :=
  c.isAlphanum || c = '_'

/-- Modelled from the spec: replacement of one illegal character. -/
def sanitize_char (c : Char) : Char :=
  if legal_char c then c else '_'

/-- Modelled from the spec: strips/replaces characters illegal in the target
engine's asset-naming rules (section 4.1), one character at a time. -/
def sanitize_name (s : String) : String :=
  String.mk (s.data.map sanitize_char)

/-- Modelled from the spec: the companion check `validate_prefix(p, name)` of
section 4.1, reporting whether `name` already starts with the required
leading tag `p`. -/
def has_required_start (p s : String) : Bool :=
  p.data.isPrefixOf s.data

/-- Modelled from the spec: `normalize(kind, raw)` applies the configured
kind-specific required leading tag by prepending it if absent, after
replacing illegal characters (section 4.1). -/
def normalize_name (p raw : String) : String :=
  let base := sanitize_name raw
  if has_required_start p base then base else p ++ base

/-- Modelled from the spec: `naming.normalize_mesh_name`, used by
`mesh_metadata.generate_metadata`; default mesh tag is "SM_". -/
def normalize_mesh_name (raw : String) : String :=
  normalize_name "SM_" raw

/-- Modelled from the spec: `naming.normalize_texture_name`, used by
`mesh_metadata._classify_shader_input`; default texture tag is "T_". -/
def normalize_texture_name (raw : String) : String :=
  normalize_name "T_" raw

/-- Modelled from the spec: `naming.normalize_material_instance_name`, used
by `mesh_metadata.get_material_data`; default tag is "MI_". -/
def normalize_material_instance_name (raw : String) : String :=
  normalize_name "MI_" raw

/-- An already-conformant name in the sense of spec section 4.1: it carries
the required leading tag and contains only legal characters. -/
def conformant (p s : String) : Bool :=
  has_required_start p s && s.data.all legal_char

lemma sanitize_char_legal (c : Char) : legal_char (sanitize_char c) = true := by
  unfold sanitize_char
  by_cases h : legal_char c = true
  · simp [h]
  · simp [h]
    decide

lemma sanitize_char_idem (c : Char) : sanitize_char (sanitize_char c) = sanitize_char c := by
  by_cases h : legal_char c = true
  · simp [sanitize_char, h]
  · have h2 : sanitize_char c = '_' := by simp [sanitize_char, h]
    rw [h2]
    decide

lemma map_sanitize_of_all_legal :
    ∀ (l : List Char), l.all legal_char = true → l.map sanitize_char = l := by
  intro l hl
  induction l with
  | nil => rfl
  | cons c cs ih =>
      simp only [List.all_cons, Bool.and_eq_true] at hl
      simp [List.map_cons, sanitize_char, hl.1, ih hl.2]

lemma sanitize_name_idem (s : String) :
    sanitize_name (sanitize_name s) = sanitize_name s := by
  unfold sanitize_name
  simp only [List.map_map]
  have h2 : sanitize_char ∘ sanitize_char = sanitize_char := funext sanitize_char_idem
  rw [h2]

lemma sanitize_name_all_legal (s : String) :
    (sanitize_name s).data.all legal_char = true := by
  unfold sanitize_name
  simp [List.all_map, Function.comp]
  intro c _
  exact sanitize_char_legal c

lemma sanitize_name_of_all_legal (s : String) (h : s.data.all legal_char = true) :
    sanitize_name s = s := by
  unfold sanitize_name
  cases s with
  | mk data => simp [map_sanitize_of_all_legal data h]

lemma has_required_start_append (p b : String) : has_required_start p (p ++ b) = true := by
  unfold has_required_start
  have : (p ++ b).data = p.data ++ b.data := rfl
  rw [this, List.isPrefixOf_iff_prefix]
  exact ⟨b.data, rfl⟩

lemma sanitize_preserves_start (p s : String)
    (hp : p.data.all legal_char = true)
    (h : has_required_start p s = true) :
    has_required_start p (sanitize_name s) = true := by
  unfold has_required_start at h ⊢
  rw [List.isPrefixOf_iff_prefix] at h ⊢
  obtain ⟨t, ht⟩ := h
  refine ⟨t.map sanitize_char, ?_⟩
  unfold sanitize_name
  simp only [← ht, List.map_append]
  rw [map_sanitize_of_all_legal p.data hp]

lemma normalize_name_starts (p s : String) :
    has_required_start p (normalize_name p s) = true := by
  unfold normalize_name
  by_cases h : has_required_start p (sanitize_name s) = true
  · simp [h]
  · simp [h, has_required_start_append]

lemma normalize_name_idem (p s : String) (hp : p.data.all legal_char = true) :
    normalize_name p (normalize_name p s) = normalize_name p s := by
  have hlegal : (normalize_name p s).data.all legal_char = true := by
    unfold normalize_name
    by_cases h : has_required_start p (sanitize_name s) = true
    · simpa [h] using sanitize_name_all_legal s
    · simp only [h, if_false]
      have : (p ++ sanitize_name s).data = p.data ++ (sanitize_name s).data := rfl
      simp [this, List.all_append, hp, sanitize_name_all_legal s]
  have hstart : has_required_start p (normalize_name p s) = true :=
    normalize_name_starts p s
  conv_lhs => rw [normalize_name]
  rw [sanitize_name_of_all_legal _ hlegal]
  simp [hstart]

lemma normalize_name_conformant (p s : String) (h : conformant p s = true) :
    normalize_name p s = s := by
  unfold conformant at h
  rw [Bool.and_eq_true] at h
  unfold normalize_name
  rw [sanitize_name_of_all_legal s h.2]
  simp [h.1]

lemma normalize_name_keeps_start (p s : String) :
    has_required_start p (normalize_name p s) = true :=
  normalize_name_starts p s

/-! ## Scene data model (bpy objects, as the embedded code observes them)

The shader-graph classifier of `mesh_metadata._classify_shader_input`
performs a bounded descent: a channel socket, the node its first link comes
from, and (for a normal-map node only) the node linked to that node's
"Color" input.  The embedding flattens this bounded walk into nested types,
following the closed set of node shapes the source pattern-matches on. -/

/-- A `bpy.types.Image` datablock.  `id` models bpy object identity. -/
structure Image where
  id : Nat
  name : String
  name_full : String
  filepath : String
  colorspace : String
  size : Nat × Nat
deriving DecidableEq, Repr

/-- The node reached after following a normal-map node's "Color" input one
hop: either an image-texture node (`tex_image`, with its possibly-unset
image) or any other node kind (including a further normal-map node). -/
inductive LeafNode where
  | tex_image (image : Option Image)
  | other_node
deriving DecidableEq, Repr

/-- The node a shader-input socket's first link comes from, as
`_classify_shader_input` distinguishes them.  For `normal_map`,
`color_input = none` models a node without a "Color" input key,
`some none` an unlinked "Color" input, and `some (some n)` a "Color" input
linked to node `n`. -/
inductive FromNode where
  | tex_image (image : Option Image)
  | normal_map (color_input : Option (Option LeafNode))
  | other_node
deriving DecidableEq, Repr

/-- The socket classes `_classify_shader_input` tests with isinstance. -/
inductive SocketKind where
  | color
  | vector
  | float
  | float_factor
  | other_kind
deriving DecidableEq, Repr

/-- A shader-input socket: its class, its literal default value (a list of
components for color/vector sockets, a scalar otherwise), and its first
link's origin node (`none` when `sock.is_linked` is false). -/
structure ShaderSocket where
  kind : SocketKind
  default_vec : List ℚ
  default_scalar : ℚ
  link : Option FromNode
deriving DecidableEq, Repr

/-- The six semantic input sockets looked up by name on the principled
shader node in `get_material_data`; `none` models a missing socket name. -/
structure PrincipledInputs where
  base_color : Option ShaderSocket
  roughness : Option ShaderSocket
  metallic : Option ShaderSocket
  normal : Option ShaderSocket
  emission_color : Option ShaderSocket
  alpha : Option ShaderSocket
deriving DecidableEq, Repr

/-- A node of a material's node tree, as observed by
`_get_shader_connected_to_output` (looks for the first node of type
BSDF_PRINCIPLED) and by `_build_context` (collects the `image` field of
every ShaderNodeTexImage node). -/
inductive TreeNode where
  | principled (inputs : PrincipledInputs)
  | tex_image (image : Option Image)
  | other_node
deriving DecidableEq, Repr

/-- A `bpy.types.Material`.  `id` models bpy object identity;
`node_tree = none` models `material.node_tree is None`. -/
structure Material where
  id : Nat
  name : String
  use_nodes : Bool
  node_tree : Option (List TreeNode)
deriving DecidableEq, Repr

/-- One entry of `object.material_slots`; `material = none` models an empty
slot. -/
structure MaterialSlot where
  material : Option Material
deriving DecidableEq, Repr

/-- A `bpy.types.Object` restricted to the fields the embedded code reads. -/
structure SceneObject where
  name : String
  obj_type : String
  material_slots : List MaterialSlot
deriving DecidableEq, Repr

/-! ## Shader-parameter classification (src/export/mesh_metadata.py) -/

/-- The literal value read from an unconnected socket: three components for
color/vector sockets, one number for float sockets. -/
inductive ConstVal where
  | vec (components : List ℚ)
  | scalar (value : ℚ)
deriving DecidableEq, Repr

/-- The classifier's result dictionary for one semantic channel:
`constant`, `texture` (with `usage = some "normal"` exactly when the
texture was reached through a normal-map node), or `complex`. -/
inductive ShaderParam where
  | constant (value : ConstVal)
  | texture (usage : Option String) (path : String) (original_name : String)
      (normalized_name : String) (color_space : String)
  | complex
deriving DecidableEq, Repr

/-- Embeds `_classify_shader_input` (mesh_metadata.py lines 53-117).
An unconnected socket of a class outside the four tested ones leaves the
local variable `val` unassigned in the source, raising UnboundLocalError;
a texture node without a resolved image fails the source's assert.
`bpy.path.abspath` is modelled as the identity, image file paths being
taken as already absolute. -/
def classify_shader_input (sock : ShaderSocket) : Except PyErr ShaderParam :=
  match sock.link with
  | none =>
      match sock.kind with
      | SocketKind.color => Except.ok (ShaderParam.constant (ConstVal.vec (sock.default_vec.take 3)))
      | SocketKind.vector => Except.ok (ShaderParam.constant (ConstVal.vec (sock.default_vec.take 3)))
      | SocketKind.float => Except.ok (ShaderParam.constant (ConstVal.scalar sock.default_scalar))
      | SocketKind.float_factor => Except.ok (ShaderParam.constant (ConstVal.scalar sock.default_scalar))
      | SocketKind.other_kind => Except.error PyErr.unboundLocalError
  | some from_node =>
      match from_node with
      | FromNode.tex_image none => Except.error PyErr.assertionError
      | FromNode.tex_image (some image) =>
          Except.ok (ShaderParam.texture none image.filepath image.name_full
            (normalize_texture_name image.name) image.colorspace)
      | FromNode.normal_map (some (some (LeafNode.tex_image none))) =>
          Except.error PyErr.assertionError
      | FromNode.normal_map (some (some (LeafNode.tex_image (some image)))) =>
          Except.ok (ShaderParam.texture (some "normal") image.filepath image.name_full
            (normalize_texture_name image.name) image.colorspace)
      | FromNode.normal_map (some (some LeafNode.other_node)) => Except.ok ShaderParam.complex
      | FromNode.normal_map (some none) => Except.ok ShaderParam.complex
      | FromNode.normal_map none => Except.ok ShaderParam.complex
      | FromNode.other_node => Except.ok ShaderParam.complex

/-- Embeds `_get_shader_connected_to_output` (mesh_metadata.py lines 38-50):
asserts the node tree exists, then takes the first BSDF_PRINCIPLED node;
`next` without a default raises StopIteration when there is none. -/
def get_shader_connected_to_output (mat : Material) : Except PyErr PrincipledInputs :=
  match mat.node_tree with
  | none => Except.error PyErr.assertionError
  | some tree =>
      match tree.findSome? (fun n =>
        match n with
        | TreeNode.principled inputs => some inputs
        | _ => none) with
      | some inputs => Except.ok inputs
      | none => Except.error PyErr.stopIteration

/-- The per-material dictionary built by `get_material_data`. -/
structure MatParams where
  base_color : ShaderParam
  roughness : ShaderParam
  metallic : ShaderParam
  normal : ShaderParam
  emission_color : ShaderParam
  alpha : ShaderParam
deriving DecidableEq, Repr

/-- One entry of the manifest's classified materials list. -/
structure MatData where
  name : String
  normalized_name : String
  parameters : MatParams
deriving DecidableEq, Repr

/-- The body of `get_material_data`'s loop for one material slot
(mesh_metadata.py lines 123-156): asserts the slot has a material, locates
its principled shader, asserts all six semantic sockets exist, and
classifies each. -/
def classify_material_slot (slot : MaterialSlot) : Except PyErr MatData := do
  let some m := slot.material | throw PyErr.assertionError
  let inputs ← get_shader_connected_to_output m
  let some s_base_color := inputs.base_color | throw PyErr.assertionError
  let some s_roughness := inputs.roughness | throw PyErr.assertionError
  let some s_metallic := inputs.metallic | throw PyErr.assertionError
  let some s_normal := inputs.normal | throw PyErr.assertionError
  let some s_emission := inputs.emission_color | throw PyErr.assertionError
  let some s_alpha := inputs.alpha | throw PyErr.assertionError
  let p_base_color ← classify_shader_input s_base_color
  let p_roughness ← classify_shader_input s_roughness
  let p_metallic ← classify_shader_input s_metallic
  let p_normal ← classify_shader_input s_normal
  let p_emission ← classify_shader_input s_emission
  let p_alpha ← classify_shader_input s_alpha
  pure {
    name := m.name
    normalized_name := normalize_material_instance_name m.name
    parameters := {
      base_color := p_base_color
      roughness := p_roughness
      metallic := p_metallic
      normal := p_normal
      emission_color := p_emission
      alpha := p_alpha
    }
  }

/-- Embeds the loop of `get_material_data` (mesh_metadata.py lines 120-159):
one classified entry is appended per material slot, in slot order, with the
first failing slot aborting the whole call. -/
def get_material_data_loop : List MaterialSlot → Except PyErr (List MatData)
  | [] => Except.ok []
  | slot :: rest =>
      match classify_material_slot slot with
      | Except.error e => Except.error e
      | Except.ok d =>
          match get_material_data_loop rest with
          | Except.error e => Except.error e
          | Except.ok ds => Except.ok (d :: ds)

/-- Embeds `get_material_data` (mesh_metadata.py lines 120-159). -/
def get_material_data (obj : SceneObject) : Except PyErr (List MatData) :=
  get_material_data_loop obj.material_slots

/-! ## Context construction (src/validation/validate_asset.py, _build_context) -/

/-- Embeds Python's `list(dict.fromkeys(l))`: keeps the first occurrence of
each element, where sameness `same` models bpy object identity. -/
def py_dedup {α : Type} (same : α → α → Bool) (l : List α) : List α :=
  l.foldl (fun acc x => if acc.any (same x) then acc else acc ++ [x]) []

lemma py_dedup_step_pairwise {α : Type} (same : α → α → Bool)
    (acc : List α) (x : α)
    (h : acc.Pairwise (fun a b => same b a = false)) :
    (if acc.any (same x) then acc else acc ++ [x]).Pairwise (fun a b => same b a = false) := by
  by_cases hx : acc.any (same x) = true
  · simpa [hx] using h
  · have hall : ∀ a ∈ acc, same x a = false := by
      intro a ha
      by_contra hcon
      have : same x a = true := by
        cases hsa : same x a with
        | false => exact absurd hsa hcon
        | true => rfl
      exact hx (List.any_eq_true.mpr ⟨a, ha, this⟩)
    have hfalse : acc.any (same x) = false := by
      cases hv : acc.any (same x) with
      | true => exact absurd hv hx
      | false => rfl
    have hred : (if acc.any (same x) then acc else acc ++ [x]) = acc ++ [x] := by
      simp [hfalse]
    rw [hred, List.pairwise_append]
    exact ⟨h, List.pairwise_singleton _ _, fun a ha b hb => by
      simp only [List.mem_singleton] at hb
      subst hb
      exact hall a ha⟩

lemma py_dedup_pairwise {α : Type} (same : α → α → Bool) (l : List α) :
    (py_dedup same l).Pairwise (fun a b => same b a = false) := by
  unfold py_dedup
  suffices h : ∀ (acc : List α), acc.Pairwise (fun a b => same b a = false) →
      (l.foldl (fun acc x => if acc.any (same x) then acc else acc ++ [x]) acc).Pairwise
        (fun a b => same b a = false) by
    exact h [] (List.Pairwise.nil)
  induction l with
  | nil => intro acc hacc; simpa using hacc
  | cons x xs ih =>
      intro acc hacc
      simp only [List.foldl_cons]
      exact ih _ (py_dedup_step_pairwise same acc x hacc)

/-- Identity sameness for materials (bpy objects hash by identity). -/
def mat_same (a b : Material) : Bool := a.id == b.id

/-- Identity sameness for the optional images appended by `_build_context`
(`node.image` may be None; None is a unique object). -/
def opt_img_same (a b : Option Image) : Bool :=
  match a, b with
  | none, none => true
  | some x, some y => x.id == y.id
  | _, _ => false

/-- Embeds lines 8-9 of validate_asset.py: the deduplicated materials list
`list(dict.fromkeys([slot.material for slot in obj.material_slots if
slot.material]))`. -/
def build_context_mats (obj : SceneObject) : List Material :=
  py_dedup mat_same (obj.material_slots.filterMap (fun slot => slot.material))

/-- Embeds lines 11-19 of validate_asset.py: for each deduplicated material
with `use_nodes` and a node tree, append the `image` field of every
image-texture node (possibly None), then deduplicate by identity. -/
def build_context_images (obj : SceneObject) : List (Option Image) :=
  py_dedup opt_img_same
    ((build_context_mats obj).foldl (fun acc m =>
      match m.node_tree with
      | none => acc
      | some tree =>
          if m.use_nodes then
            acc ++ tree.filterMap (fun n =>
              match n with
              | TreeNode.tex_image image => some image
              | _ => none)
          else acc) [])

/-- The frozen dataclass `ValidationContext` exactly as declared in
validation_types.py lines 8-12: its only fields are `obj`, `materials` and
`images`.  (The `asset_type`/`obj_type` the rest of the code expects is not
among them.) -/
structure ValidationContext where
  obj : SceneObject
  materials : List Material
  images : List Image
deriving DecidableEq, Repr

/-- The field names of the dataclass `ValidationContext`, i.e. the
positional parameters its generated `__init__` accepts and the attributes
instances expose (validation_types.py lines 8-12). -/
def validation_context_field_names : List String := ["obj", "materials", "images"]

/-- A Python value passed positionally at the construction site of
`ValidationContext` in `_build_context`. -/
inductive PyValue where
  | v_obj (o : SceneObject)
  | v_str (s : String)
  | v_mats (l : List Material)
  | v_imgs (l : List (Option Image))
deriving DecidableEq, Repr

/-- The generated `__init__` of the three-field dataclass: it accepts
exactly three positional arguments (binding them to `obj`, `materials`,
`images` with no runtime type check) and raises TypeError for any other
arity. -/
def validation_context_init (args : List PyValue) : Except PyErr (PyValue × PyValue × PyValue) :=
  match args with
  | [a, b, c] => Except.ok (a, b, c)
  | _ => Except.error PyErr.typeError

/-- Embeds `_build_context` (validate_asset.py lines 7-21): after computing
the deduplicated materials and images, line 21 calls
`vt.ValidationContext(obj, asset_type, mats, images)` with four positional
arguments. -/
def build_context (obj : SceneObject) (asset_type : String) :
    Except PyErr (PyValue × PyValue × PyValue) :=
  validation_context_init
    [PyValue.v_obj obj, PyValue.v_str asset_type,
     PyValue.v_mats (build_context_mats obj), PyValue.v_imgs (build_context_images obj)]

/-! ## Rule engine (src/validation/validate_asset.py, generate_validation_data) -/

/-- Rule severity, the `Literal["error", "warning"]` of validation_types.py. -/
inductive Severity where
  | severity_error
  | severity_warning
deriving DecidableEq, Repr

/-- The bare check-function references that validate_asset.py can store in a
`ValidationRule`, one tag per function of error_checks.py and
warning_checks.py. -/
inductive CheckFn where
  | validate_mesh_uv
  | validate_mesh_manifold
  | validate_mesh_materials
  | validate_file_names
  | validate_triangle_budget
  | validate_texture_aspect
  | validate_texture_size
  | validate_modular
deriving DecidableEq, Repr

/-- The dataclass `ValidationRule` of validation_types.py lines 14-18. -/
structure AF_Rule where
  code : String
  severity : Severity
  check : CheckFn
deriving DecidableEq, Repr

/-- The fixed rule list built by `generate_validation_data`
(validate_asset.py lines 32-68), in registration order. -/
def af_rules : List AF_Rule :=
  [⟨"MISSING_UV", Severity.severity_error, CheckFn.validate_mesh_uv⟩,
   ⟨"NON_MANIFOLD", Severity.severity_error, CheckFn.validate_mesh_manifold⟩,
   ⟨"MISSING_MATERIALS", Severity.severity_warning, CheckFn.validate_mesh_materials⟩,
   ⟨"BAD_NAME", Severity.severity_warning, CheckFn.validate_file_names⟩,
   ⟨"OVER_TRIANGLE_BUDGET", Severity.severity_warning, CheckFn.validate_triangle_budget⟩,
   ⟨"TEXTURE_NOT_SQUARE", Severity.severity_warning, CheckFn.validate_texture_aspect⟩,
   ⟨"OVER_TEXTURE_BUDGET", Severity.severity_warning, CheckFn.validate_texture_size⟩]

/-- One aggregated item `\x7b"code": r.code, "message": message\x7d`. -/
structure RItem where
  code : String
  message : List String
deriving DecidableEq, Repr

/-- The dictionary returned by `generate_validation_data`. -/
structure ValidationResult where
  passed : Bool
  errors : List RItem
  warnings : List RItem
deriving DecidableEq, Repr

/-- The aggregation loop of `generate_validation_data` (validate_asset.py
lines 73-82): each rule's messages, when non-empty, are appended to the
error list for severity "error" and to the warning list otherwise.  The
outcome of each check function is supplied by `run`, so the loop can be
studied for every possible combination of rule outcomes. -/
def gvd_loop (run : CheckFn → List String) :
    List AF_Rule → List RItem → List RItem → List RItem × List RItem
  | [], error_items, warning_items => (error_items, warning_items)
  | r :: rs, error_items, warning_items =>
      let message := run r.check
      if message = [] then gvd_loop run rs error_items warning_items
      else if r.severity = Severity.severity_error then
        gvd_loop run rs (error_items ++ [⟨r.code, message⟩]) warning_items
      else
        gvd_loop run rs error_items (warning_items ++ [⟨r.code, message⟩])

/-- Embeds `generate_validation_data` (validate_asset.py lines 70-88),
parameterized by the outcome of every check function:
`passed := len(error_items) == 0`. -/
def generate_validation_data (run : CheckFn → List String) : ValidationResult :=
  let acc := gvd_loop run af_rules [] []
  ⟨acc.1.length == 0, acc.1, acc.2⟩

/-- The error items a rule list contributes, in registration order. -/
def error_items_of (run : CheckFn → List String) (rules : List AF_Rule) : List RItem :=
  (rules.filter (fun r =>
    !(run r.check).isEmpty && (r.severity == Severity.severity_error))).map
    (fun r => ⟨r.code, run r.check⟩)

/-- The warning items a rule list contributes, in registration order. -/
def warning_items_of (run : CheckFn → List String) (rules : List AF_Rule) : List RItem :=
  (rules.filter (fun r =>
    !(run r.check).isEmpty && !(r.severity == Severity.severity_error))).map
    (fun r => ⟨r.code, run r.check⟩)

lemma gvd_loop_eq (run : CheckFn → List String) :
    ∀ (rules : List AF_Rule) (es ws : List RItem),
      gvd_loop run rules es ws =
        (es ++ error_items_of run rules, ws ++ warning_items_of run rules) := by
  intro rules
  induction rules with
  | nil => intro es ws; simp [gvd_loop, error_items_of, warning_items_of]
  | cons r rs ih =>
      intro es ws
      by_cases hm : run r.check = []
      · have hempty : (run r.check).isEmpty = true := by
          simp [hm]
        simp [gvd_loop, hm, ih, error_items_of, warning_items_of, List.filter_cons, hempty]
      · have hempty : (run r.check).isEmpty = false := by
          cases hv : run r.check with
          | nil => exact absurd hv hm
          | cons a as => simp
        by_cases hs : r.severity = Severity.severity_error
        · simp [gvd_loop, hm, hs, ih, error_items_of, warning_items_of,
            List.filter_cons, hempty]
        · have hs2 : (r.severity == Severity.severity_error) = false := by
            cases hsev : r.severity with
            | severity_error => exact absurd hsev hs
            | severity_warning => rfl
          simp [gvd_loop, hm, hs, ih, error_items_of, warning_items_of,
            List.filter_cons, hempty, hs2]

/-! ## The modular grid-alignment check (src/validation/error_checks.py) -/

/-- A `mathutils.Vector` restricted to its three components, over ℚ. -/
structure Vec3 where
  x : ℚ
  y : ℚ
  z : ℚ
deriving DecidableEq, Repr

/-- Python's built-in `round` on rationals: round-half-to-even. -/
def py_round (q : ℚ) : ℤ :=
  let f : ℤ := ⌊q⌋
  let r : ℚ := q - (f : ℚ)
  if r < 1/2 then f
  else if 1/2 < r then f + 1
  else if f % 2 = 0 then f else f + 1

/-- Embeds `_is_multiple` (error_checks.py lines 97-102): x is a multiple of
`unit` when `abs(x/unit - round(x/unit)) <= eps`; a zero unit yields False. -/
def is_multiple (x unit eps : ℚ) : Bool :=
  if unit = 0 then false
  else decide (|x / unit - ((py_round (x / unit) : ℤ) : ℚ)| ≤ eps)

/-- Embeds `validate_modular` (error_checks.py lines 105-135).  The source
reads `validation_data.obj_type` — an attribute the ValidationContext
dataclass does not declare — so the asset type is taken here as the value
that attribute is meant to carry; `bounds` is the result of
`_eval_object_bounds_local` (None for a non-mesh or empty mesh, which the
source asserts against), and `unit`/`eps` are the two settings read from
`config.get_setting` (defaults 0.1 and 1e-5). -/
def validate_modular (asset_type : String) (bounds : Option (Vec3 × Vec3))
    (unit eps : ℚ) : Except PyErr (List String) :=
  if asset_type ≠ "MODULAR" then Except.ok []
  else
    match bounds with
    | none => Except.error PyErr.assertionError
    | some (min_v, max_v) =>
        let size : Vec3 := ⟨max_v.x - min_v.x, max_v.y - min_v.y, max_v.z - min_v.z⟩
        let msgs1 : List String :=
          if is_multiple size.x unit eps then []
          else ["Width is not a multiple of " ++ toString unit]
        let msgs2 : List String :=
          if is_multiple size.y unit eps then []
          else ["Depth is not a multiple of " ++ toString unit]
        let msgs3 : List String :=
          if is_multiple size.z unit eps then []
          else ["Height is not a multiple of " ++ toString unit]
        let pivot_ok : Bool :=
          decide (|min_v.x| ≤ eps) && decide (|min_v.y| ≤ eps) && decide (|min_v.z| ≤ eps)
        let msgs4 : List String := if pivot_ok then [] else ["Pivot not aligned to corner"]
        Except.ok (msgs1 ++ msgs2 ++ msgs3 ++ msgs4)

/-! ## Mesh statistics (src/metadata/statistics.py and mesh_metadata.py) -/

/-- The geometry of a mesh as the statistics code reads it: counts of
vertices and edges, and the list of per-polygon vertex counts. -/
structure MeshGeo where
  vertices : Nat
  edges : Nat
  polygons : List Nat
deriving DecidableEq, Repr

/-- The statistics dictionary; `triangles` is a Python int (possibly
negative for degenerate polygons), so it lives in ℤ. -/
structure MeshStats where
  vertices : Nat
  edges : Nat
  faces : Nat
  triangles : ℤ
deriving DecidableEq, Repr

/-- The triangle formula shared by both statistics sites:
`sum(len(p.vertices) - 2 for p in polygons)`. -/
def tri_count (polys : List Nat) : ℤ :=
  (polys.map (fun vc : ℕ => (vc : ℤ) - 2)).sum

/-- The statistics computed from a (raw or evaluated) mesh, as in the try
body of `get_evaluated_mesh_stats` (statistics.py lines 18-30 and
mesh_metadata.py lines 21-33). -/
def mesh_stats_of (geo : MeshGeo) : MeshStats :=
  ⟨geo.vertices, geo.edges, geo.polygons.length, tri_count geo.polygons⟩

/-- The "original" statistics block of `generate_metadata`
(mesh_metadata.py lines 210-215), computed from the raw object data with
the same formula. -/
def original_mesh_stats (geo : MeshGeo) : MeshStats :=
  ⟨geo.vertices, geo.edges, geo.polygons.length,
   (geo.polygons.map (fun vc : ℕ => (vc : ℤ) - 2)).sum⟩

/-! ## Scoped resources (statistics.py / error_checks.py try-finally blocks) -/

/-- The host-scene state the scoped-resource code mutates: the number of
live temporary evaluated meshes, and the editor mode. -/
structure HostState where
  eval_mesh_live : Nat
  mode : String
deriving DecidableEq, Repr

/-- Embeds `get_evaluated_mesh_stats` with its resource effects
(statistics.py lines 6-32): `obj_eval.to_mesh` acquires a temporary mesh,
the try body computes the statistics (with `body_fault` standing for any
exception the host may raise inside it), and the finally block always runs
`obj_eval.to_mesh_clear()`. -/
def get_evaluated_mesh_stats_run (geo : MeshGeo) (body_fault : Option PyErr)
    (s : HostState) : Except PyErr MeshStats × HostState :=
  let s1 : HostState := { s with eval_mesh_live := s.eval_mesh_live + 1 }
  let body : Except PyErr MeshStats :=
    match body_fault with
    | some e => Except.error e
    | none => Except.ok (mesh_stats_of geo)
  (body, { s1 with eval_mesh_live := s1.eval_mesh_live - 1 })

/-- Embeds `validate_mesh_manifold` with its mode effects (error_checks.py
lines 25-60): an early return for non-mesh objects before any mode change;
otherwise the prior mode is recorded, EDIT mode entered if needed, the try
body runs (selection scan, with `body_fault` standing for any exception
inside it, and returning early from inside the try on both outcomes), and
the finally block restores the prior mode when it was changed. -/
def validate_mesh_manifold_run (obj_is_mesh : Bool) (has_nonmanifold : Bool)
    (body_fault : Option PyErr) (s : HostState) : Except PyErr (List String) × HostState :=
  if obj_is_mesh = false then
    (Except.ok ["Error checking if asset is manifold. Asset is not a mesh."], s)
  else
    let prev := s.mode
    let s1 : HostState := if prev ≠ "EDIT" then { s with mode := "EDIT" } else s
    let body : Except PyErr (List String) :=
      match body_fault with
      | some e => Except.error e
      | none =>
          if has_nonmanifold then Except.ok ["Mesh is not manifold"] else Except.ok []
    let s2 : HostState := if prev ≠ "EDIT" then { s1 with mode := prev } else s1
    (body, s2)

/-! ## Texture aspect-ratio check (src/validation/warning_checks.py) -/

/-- The message built for one non-square image (warning_checks.py line 94);
the Python float division `image.size[0] / image.size[1]` is modelled in ℚ
and raises ZeroDivisionError when the height is zero. -/
def aspect_msg (image : Image) : String :=
  "Image texture " ++ image.name_full ++ " does not have a square aspect ratio. " ++
    image.name_full ++ " aspect ratio is " ++
    toString ((image.size.1 : ℚ) / (image.size.2 : ℚ)) ++ "."

/-- The loop of `validate_texture_aspect_ratio` (warning_checks.py lines
92-95): one message per non-square image, appended in list order; building
the message divides width by height, so a zero-height non-square image
raises before anything is returned. -/
def aspect_loop : List Image → List String → Except PyErr (List String)
  | [], messages => Except.ok messages
  | image :: rest, messages =>
      if image.size.1 ≠ image.size.2 then
        if image.size.2 = 0 then Except.error PyErr.zeroDivisionError
        else aspect_loop rest (messages ++ [aspect_msg image])
      else aspect_loop rest messages

/-- Embeds `validate_texture_aspect_ratio` (warning_checks.py lines 89-96). -/
def validate_texture_aspect (ctx : ValidationContext) : Except PyErr (List String) :=
  aspect_loop ctx.images []

lemma aspect_loop_ok (images : List Image)
    (h : ∀ i ∈ images, i.size.1 ≠ i.size.2 → i.size.2 ≠ 0) :
    ∀ (messages : List String),
      aspect_loop images messages =
        Except.ok (messages ++
          (images.filter (fun i => i.size.1 != i.size.2)).map aspect_msg) := by
  induction images with
  | nil => intro messages; simp [aspect_loop]
  | cons i rest ih =>
      intro messages
      have hrest : ∀ j ∈ rest, j.size.1 ≠ j.size.2 → j.size.2 ≠ 0 := by
        intro j hj
        exact h j (List.mem_cons_of_mem i hj)
      by_cases hsq : i.size.1 = i.size.2
      · have hne : (i.size.1 != i.size.2) = false := by
          simp [hsq]
        simp [aspect_loop, hsq, ih hrest, List.filter_cons, hne]
      · have hnz : i.size.2 ≠ 0 := h i (List.mem_cons_self i rest) hsq
        have hne : (i.size.1 != i.size.2) = true := by
          simp [hsq]
        simp [aspect_loop, hsq, hnz, ih hrest, List.filter_cons, hne]

/-! ## Ingestion gating (src/asset_forge.py, AF_OT_export.execute) -/

/-- The strictness policy enum of AF_Settings.import_strictness. -/
inductive Strictness where
  | errors_only
  | errors_and_warnings
  | do_not_import
deriving DecidableEq, Repr

/-- The kind of message the operator reports before returning. -/
inductive ReportKind where
  | report_info
  | report_error
deriving DecidableEq, Repr

/-- The operator's return value. -/
inductive OpStatus where
  | op_finished
  | op_cancelled
deriving DecidableEq, Repr

/-- What one run of the export operator did after building the manifest. -/
structure ExecOutcome where
  manifest_written : Bool
  ingestion_triggered : Bool
  report : ReportKind
  status : OpStatus
deriving DecidableEq, Repr

/-- Embeds the tail of `AF_OT_export.execute` (asset_forge.py lines
256-273), with both export calls succeeding: the manifest (and mesh file)
are written, then the strictness chain either passes silently
(DO_NOT_IMPORT), raises a RuntimeError — caught by the except clause, which
reports the failure and returns CANCELLED, leaving the written files in
place — or triggers `run_ue_import`. -/
def execute_after_validation (strict : Strictness) (passed : Bool)
    (warnings : List RItem) : ExecOutcome :=
  if strict = Strictness.do_not_import then
    ⟨true, false, ReportKind.report_info, OpStatus.op_finished⟩
  else if strict = Strictness.errors_and_warnings ∧ (warnings ≠ [] ∨ passed = false) then
    ⟨true, false, ReportKind.report_error, OpStatus.op_cancelled⟩
  else if passed = false then
    ⟨true, false, ReportKind.report_error, OpStatus.op_cancelled⟩
  else
    ⟨true, true, ReportKind.report_info, OpStatus.op_finished⟩

lemma get_material_data_loop_length :
    ∀ (slots : List MaterialSlot) (r : List MatData),
      get_material_data_loop slots = Except.ok r → r.length = slots.length := by
  intro slots
  induction slots with
  | nil =>
      intro r h
      simp only [get_material_data_loop] at h
      cases h
      rfl
  | cons slot rest ih =>
      intro r h
      simp only [get_material_data_loop] at h
      cases hd : classify_material_slot slot with
      | error e => rw [hd] at h; cases h
      | ok d =>
          rw [hd] at h
          cases hl : get_material_data_loop rest with
          | error e => rw [hl] at h; cases h
          | ok ds =>
              rw [hl] at h
              cases h
              simp [ih ds hl]

/-! ## Concrete fixtures used by witnesses and counterexamples -/

/-- Six conventional unlinked principled inputs (Blender defaults). -/
def prin_basic : PrincipledInputs :=
  { base_color := some ⟨SocketKind.color, [4/5, 4/5, 4/5, 1], 0, none⟩
    roughness := some ⟨SocketKind.float, [], 1/2, none⟩
    metallic := some ⟨SocketKind.float, [], 0, none⟩
    normal := some ⟨SocketKind.vector, [0, 0, 1], 0, none⟩
    emission_color := some ⟨SocketKind.color, [0, 0, 0, 1], 0, none⟩
    alpha := some ⟨SocketKind.float_factor, [], 1, none⟩ }

/-- A material with one principled shader node and all-constant channels. -/
def m_wood : Material :=
  ⟨1, "MI_Wood", true, some [TreeNode.principled prin_basic]⟩

/-- A mesh object whose two material slots reference the same material. -/
def obj_two_slots : SceneObject :=
  ⟨"SM_Crate", "MESH", [⟨some m_wood⟩, ⟨some m_wood⟩]⟩

/-- Evaluated local-space bounds of a modular piece 0.95 units wide,
1 unit deep and high, pivot at the minimum corner. -/
def bounds_095 : Vec3 × Vec3 := (⟨0, 0, 0⟩, ⟨19/20, 1, 1⟩)

/-- Evaluated local-space bounds of a modular piece exactly 1 unit wide. -/
def bounds_100 : Vec3 × Vec3 := (⟨0, 0, 0⟩, ⟨1, 1, 1⟩)

/-- A normal-map image texture. -/
def img_norm : Image :=
  ⟨9, "T_Rock_N", "T_Rock_N", "/assets/T_Rock_N.png", "Non-Color", (1024, 1024)⟩

/-- A socket linked through a normal-map node to an image texture. -/
def sock_norm : ShaderSocket :=
  ⟨SocketKind.vector, [], 0,
   some (FromNode.normal_map (some (some (LeafNode.tex_image (some img_norm)))))⟩

/-- A socket linked to a normal-map node whose color input comes from a
node that is not an image texture (for instance a second normal-map node). -/
def sock_chain : ShaderSocket :=
  ⟨SocketKind.vector, [], 0, some (FromNode.normal_map (some (some LeafNode.other_node)))⟩

/-- A context holding one non-square image of zero height. -/
def ctx_zero_height : ValidationContext :=
  ⟨⟨"SM_Bad", "MESH", []⟩, [],
   [⟨3, "T_Bad", "T_Bad", "/assets/T_Bad.png", "sRGB", (1024, 0)⟩]⟩

/-- A context holding one square and one non-square image, both of
non-zero height. -/
def ctx_mixed : ValidationContext :=
  ⟨⟨"SM_Mix", "MESH", []⟩, [],
   [⟨4, "T_Sq", "T_Sq", "/assets/T_Sq.png", "sRGB", (512, 512)⟩,
    ⟨5, "T_Wide", "T_Wide", "/assets/T_Wide.png", "sRGB", (1024, 512)⟩]⟩

/-! ## Evaluation lemmas for the modular-grid scenarios -/

lemma floor_19_half : ⌊(19:ℚ)/2⌋ = 9 := by
  rw [Int.floor_eq_iff]
  constructor <;> norm_num

lemma py_round_19_half : py_round ((19:ℚ)/2) = 10 := by
  unfold py_round
  rw [floor_19_half]
  norm_num

lemma floor_ten : ⌊(10:ℚ)⌋ = 10 := by
  rw [Int.floor_eq_iff]
  constructor <;> norm_num

lemma py_round_ten : py_round (10:ℚ) = 10 := by
  unfold py_round
  rw [floor_ten]
  norm_num

lemma is_multiple_095 : is_multiple ((19:ℚ)/20) (1/10) (1/100000) = false := by
  unfold is_multiple
  rw [if_neg (by norm_num : ¬((1:ℚ)/10 = 0))]
  have harg : (19:ℚ)/20 / (1/10) = 19/2 := by norm_num
  rw [harg, py_round_19_half]
  simp only [decide_eq_false_iff_not, not_le]
  have habs : |(19:ℚ)/2 - ((10:ℤ):ℚ)| = 1/2 := by
    rw [abs_of_nonpos (by push_cast; norm_num)]
    push_cast
    norm_num
  rw [habs]
  norm_num

lemma is_multiple_one : is_multiple (1:ℚ) (1/10) (1/100000) = true := by
  unfold is_multiple
  rw [if_neg (by norm_num : ¬((1:ℚ)/10 = 0))]
  have harg : (1:ℚ) / (1/10) = 10 := by norm_num
  rw [harg, py_round_ten]
  simp only [decide_eq_true_eq]
  have habs : |(10:ℚ) - ((10:ℤ):ℚ)| = 0 := by
    push_cast
    norm_num
  rw [habs]
  norm_num

/-! ## Claim theorems -/

/-- C1: the claim says `generate_validation_data` builds a ValidationContext
bundling the object, the asset type, and the deduplicated materials and
images, from which every rule can read the asset type.  The code disagrees
with itself: the frozen dataclass declares only the fields `obj`,
`materials`, `images`, so the four-positional-argument construction in
`_build_context` raises TypeError for every input, and neither `asset_type`
nor the `obj_type` attribute the budget rules read is among the dataclass
fields. -/
theorem C1_validation_context_not_built (obj : SceneObject) (asset_type : String) :
    build_context obj asset_type = Except.error PyErr.typeError
    ∧ validation_context_field_names = ["obj", "materials", "images"]
    ∧ "asset_type" ∉ validation_context_field_names
    ∧ "obj_type" ∉ validation_context_field_names := by
  refine ⟨rfl, rfl, ?_, ?_⟩ <;> decide

/-- C2: for every possible combination of rule outcomes, the result of
`generate_validation_data` satisfies `passed = (errors = [])` independently
of warnings; a rule with a non-empty message list lands in the error list
exactly when its severity is "error" and in the warning list otherwise, and
both lists are the registration-order sublists of the rule table. -/
theorem C2_passed_iff_no_errors (run : CheckFn → List String) :
    ((generate_validation_data run).passed = true ↔ (generate_validation_data run).errors = [])
    ∧ (generate_validation_data run).errors = error_items_of run af_rules
    ∧ (generate_validation_data run).warnings = warning_items_of run af_rules := by
  unfold generate_validation_data
  rw [gvd_loop_eq]
  simp [List.length_eq_zero]

/-- C3 counterexample: with strictness DO_NOT_IMPORT and a fully passing
validation, ingestion is blocked, yet the operator reports plain info and
returns FINISHED — no failure is reported to the caller, contradicting the
claim that a failure is reported whenever ingestion is blocked. -/
theorem C3_counterexample :
    (execute_after_validation Strictness.do_not_import true []).ingestion_triggered = false
    ∧ (execute_after_validation Strictness.do_not_import true []).report = ReportKind.report_info
    ∧ (execute_after_validation Strictness.do_not_import true []).status = OpStatus.op_finished := by
  decide

/-- C3 (amended): after the manifest is written, ingestion is triggered iff
the strictness policy permits it — never under DO_NOT_IMPORT, under
ERRORS_AND_WARNINGS exactly when validation passed with no warnings, under
ERRORS_ONLY exactly when validation passed; the manifest stays written on
every path; and when ingestion is blocked under a policy other than
DO_NOT_IMPORT the failure is reported and the operator is cancelled (under
DO_NOT_IMPORT the block is silent and the operator reports success). -/
theorem C3_ingestion_gating (passed : Bool) (warnings : List RItem) :
    (execute_after_validation Strictness.do_not_import passed warnings).ingestion_triggered = false
    ∧ (execute_after_validation Strictness.errors_and_warnings passed warnings).ingestion_triggered
        = (passed && warnings.isEmpty)
    ∧ (execute_after_validation Strictness.errors_only passed warnings).ingestion_triggered = passed
    ∧ (∀ strict, (execute_after_validation strict passed warnings).manifest_written = true)
    ∧ (∀ strict, strict ≠ Strictness.do_not_import →
        (execute_after_validation strict passed warnings).ingestion_triggered = false →
        (execute_after_validation strict passed warnings).report = ReportKind.report_error
        ∧ (execute_after_validation strict passed warnings).status = OpStatus.op_cancelled)
    ∧ (execute_after_validation Strictness.do_not_import passed warnings).report
        = ReportKind.report_info := by
  refine ⟨rfl, ?_, ?_, ?_, ?_, rfl⟩
  · cases passed <;> cases warnings <;> simp [execute_after_validation]
  · cases passed <;> simp [execute_after_validation]
  · intro strict
    cases strict <;> cases passed <;> cases warnings <;> simp [execute_after_validation]
  · intro strict hne hblock
    cases strict with
    | do_not_import => exact absurd rfl hne
    | errors_only =>
        cases passed with
        | true => simp [execute_after_validation] at hblock
        | false => simp [execute_after_validation]
    | errors_and_warnings =>
        cases passed <;> cases warnings <;>
          simp_all [execute_after_validation]

/-- C3 witness: a failing validation under ERRORS_ONLY gets an error report
and a cancelled operator. -/
theorem C3_ingestion_gating_witness :
    (execute_after_validation Strictness.errors_only false []).report = ReportKind.report_error
    ∧ (execute_after_validation Strictness.errors_only false []).status = OpStatus.op_cancelled :=
  (C3_ingestion_gating false []).2.2.2.2.1 Strictness.errors_only (by decide) (by decide)

/-- C4: the claim says the validation run for modular assets includes the
grid-alignment rule.  The code implements the rule (`validate_modular`
reports exactly the claimed width misalignment for the 0.95-unit scenario
and passes the 1.0-unit one) but `generate_validation_data` never registers
it: its rule table holds exactly the seven other checks, so no validation
result can contain a grid-alignment message. -/
theorem C4_grid_rule_not_registered :
    af_rules.map AF_Rule.check =
      [CheckFn.validate_mesh_uv, CheckFn.validate_mesh_manifold,
       CheckFn.validate_mesh_materials, CheckFn.validate_file_names,
       CheckFn.validate_triangle_budget, CheckFn.validate_texture_aspect,
       CheckFn.validate_texture_size]
    ∧ CheckFn.validate_modular ∉ af_rules.map AF_Rule.check
    ∧ validate_modular "MODULAR" (some bounds_095) (1/10) (1/100000)
        = Except.ok ["Width is not a multiple of " ++ toString (1/10 : ℚ)]
    ∧ validate_modular "MODULAR" (some bounds_100) (1/10) (1/100000) = Except.ok [] := by
  refine ⟨rfl, by decide, ?_, ?_⟩
  · unfold validate_modular bounds_095
    norm_num [is_multiple_095, is_multiple_one]
  · unfold validate_modular bounds_100
    norm_num [is_multiple_one]

/-- C5 counterexample: on an object whose two material slots reference the
same material (by identity), the manifest's classified materials list built
by `get_material_data` contains that material twice — the claim's
"exactly once" fails — while `_build_context`'s deduplicated list holds it
once. -/
theorem C5_counterexample :
    (get_material_data obj_two_slots).map (fun l => l.map MatData.name)
        = Except.ok ["MI_Wood", "MI_Wood"]
    ∧ (get_material_data obj_two_slots).map (fun l => (l.map MatData.name).count "MI_Wood")
        = Except.ok 2
    ∧ build_context_mats obj_two_slots = [m_wood] := by
  refine ⟨rfl, rfl, rfl⟩

/-- C5 (amended): materials and the images they reference are deduplicated
by identity when the ValidationContext is built, so each appears at most
once in the context's lists; but the manifest's classified materials list
is built per material slot with no deduplication, so it has exactly one
entry per slot and a material referenced by two slots appears twice. -/
theorem C5_dedup_in_context_not_in_manifest (obj : SceneObject) :
    (build_context_mats obj).Pairwise (fun a b => a.id ≠ b.id)
    ∧ (build_context_images obj).Pairwise (fun a b => opt_img_same b a = false)
    ∧ (∀ r, get_material_data obj = Except.ok r → r.length = obj.material_slots.length) := by
  refine ⟨?_, ?_, ?_⟩
  · have h := py_dedup_pairwise mat_same
      (obj.material_slots.filterMap (fun slot => slot.material))
    refine h.imp ?_
    intro a b hab hid
    unfold mat_same at hab
    rw [hid] at hab
    simp at hab
  · exact py_dedup_pairwise opt_img_same _
  · intro r h
    exact get_material_data_loop_length obj.material_slots r h

/-- C5 witness: the two-slot object's manifest list has one entry per slot. -/
theorem C5_dedup_in_context_not_in_manifest_witness :
    ((get_material_data obj_two_slots).toOption.getD []).length
      = obj_two_slots.material_slots.length :=
  (C5_dedup_in_context_not_in_manifest obj_two_slots).2.2 _ rfl

/-- C6: for every mesh whose polygons each have at least 3 vertices, both
the raw and the evaluated statistics satisfy
`triangles = Σ (vertex_count - 2)` over all polygons, and that count is
non-negative. -/
theorem C6_triangle_sum (geo : MeshGeo) (h : ∀ vc ∈ geo.polygons, 3 ≤ vc) :
    (mesh_stats_of geo).triangles = (geo.polygons.map (fun vc : ℕ => (vc : ℤ) - 2)).sum
    ∧ (original_mesh_stats geo).triangles = (geo.polygons.map (fun vc : ℕ => (vc : ℤ) - 2)).sum
    ∧ 0 ≤ (mesh_stats_of geo).triangles
    ∧ 0 ≤ (original_mesh_stats geo).triangles := by
  have hnn : 0 ≤ (geo.polygons.map (fun vc : ℕ => (vc : ℤ) - 2)).sum := by
    apply List.sum_nonneg
    intro x hx
    rw [List.mem_map] at hx
    obtain ⟨vc, hvc, hxe⟩ := hx
    have h3 := h vc hvc
    subst hxe
    omega
  exact ⟨rfl, rfl, hnn, hnn⟩

/-- C6 witness: a mesh with one triangle, one quad and one pentagon. -/
theorem C6_triangle_sum_witness :
    (∀ vc ∈ ([3, 4, 5] : List Nat), 3 ≤ vc)
    ∧ 0 ≤ (mesh_stats_of ⟨6, 9, [3, 4, 5]⟩).triangles :=
  ⟨by decide, (C6_triangle_sum ⟨6, 9, [3, 4, 5]⟩ (by decide)).2.2.1⟩

/-- C7: for every string and for each of the three name kinds, the
(spec-modelled) normalization is idempotent, never removes an
already-present required leading tag, and does not alter an
already-conformant name. -/
theorem C7_normalization_idempotent (s : String) :
    normalize_mesh_name (normalize_mesh_name s) = normalize_mesh_name s
    ∧ normalize_texture_name (normalize_texture_name s) = normalize_texture_name s
    ∧ normalize_material_instance_name (normalize_material_instance_name s)
        = normalize_material_instance_name s
    ∧ (has_required_start "SM_" s = true →
        has_required_start "SM_" (normalize_mesh_name s) = true)
    ∧ (has_required_start "T_" s = true →
        has_required_start "T_" (normalize_texture_name s) = true)
    ∧ (has_required_start "MI_" s = true →
        has_required_start "MI_" (normalize_material_instance_name s) = true)
    ∧ (conformant "SM_" s = true → normalize_mesh_name s = s)
    ∧ (conformant "T_" s = true → normalize_texture_name s = s)
    ∧ (conformant "MI_" s = true → normalize_material_instance_name s = s) := by
  refine ⟨normalize_name_idem "SM_" s (by decide), normalize_name_idem "T_" s (by decide),
    normalize_name_idem "MI_" s (by decide),
    fun _ => normalize_name_keeps_start "SM_" s,
    fun _ => normalize_name_keeps_start "T_" s,
    fun _ => normalize_name_keeps_start "MI_" s,
    normalize_name_conformant "SM_" s,
    normalize_name_conformant "T_" s,
    normalize_name_conformant "MI_" s⟩

/-- C7 witness: the conformant name "SM_Rock" is left unchanged. -/
theorem C7_normalization_idempotent_witness :
    conformant "SM_" "SM_Rock" = true ∧ normalize_mesh_name "SM_Rock" = "SM_Rock" :=
  ⟨by decide, (C7_normalization_idempotent "SM_Rock").2.2.2.2.2.2.1 (by decide)⟩

/-- C8: a semantic channel socket linked to a normal-map indirection node
whose "Color" input is linked to an image-texture node with a resolved
image classifies as a texture with usage "normal" — path, original and
normalized names, and colorspace included — and not as Complex; the
classifier follows exactly one hop, so a normal-map node whose color input
comes from any non-image-texture node yields Complex. -/
theorem C8_normal_map_one_hop (s t : ShaderSocket) (img : Image)
    (hs : s.link = some (FromNode.normal_map (some (some (LeafNode.tex_image (some img))))))
    (ht : t.link = some (FromNode.normal_map (some (some LeafNode.other_node)))) :
    classify_shader_input s =
      Except.ok (ShaderParam.texture (some "normal") img.filepath img.name_full
        (normalize_texture_name img.name) img.colorspace)
    ∧ classify_shader_input s ≠ Except.ok ShaderParam.complex
    ∧ classify_shader_input t = Except.ok ShaderParam.complex := by
  have h1 : classify_shader_input s =
      Except.ok (ShaderParam.texture (some "normal") img.filepath img.name_full
        (normalize_texture_name img.name) img.colorspace) := by
    simp [classify_shader_input, hs]
  refine ⟨h1, ?_, ?_⟩
  · rw [h1]
    simp
  · simp [classify_shader_input, ht]

/-- C8 witness: a concrete normal channel through a normal-map node. -/
theorem C8_normal_map_one_hop_witness :
    classify_shader_input sock_norm =
      Except.ok (ShaderParam.texture (some "normal") "/assets/T_Rock_N.png" "T_Rock_N"
        (normalize_texture_name "T_Rock_N") "Non-Color")
    ∧ classify_shader_input sock_norm ≠ Except.ok ShaderParam.complex
    ∧ classify_shader_input sock_chain = Except.ok ShaderParam.complex :=
  C8_normal_map_one_hop sock_norm sock_chain img_norm rfl rfl

/-- C9: on every exit path — success or exception in the try body, and the
early non-mesh return — the temporary evaluated mesh acquired for
statistics is released and the editor mode switched for the non-manifold
check is restored, so neither scoped resource outlives its call. -/
theorem C9_scoped_release (geo : MeshGeo) (fault1 fault2 : Option PyErr)
    (obj_is_mesh has_nonmanifold : Bool) (s1 s2 : HostState) :
    ((get_evaluated_mesh_stats_run geo fault1 s1).2).eval_mesh_live = s1.eval_mesh_live
    ∧ ((get_evaluated_mesh_stats_run geo fault1 s1).2).mode = s1.mode
    ∧ ((validate_mesh_manifold_run obj_is_mesh has_nonmanifold fault2 s2).2).mode = s2.mode
    ∧ ((validate_mesh_manifold_run obj_is_mesh has_nonmanifold fault2 s2).2).eval_mesh_live
        = s2.eval_mesh_live := by
  refine ⟨?_, ?_, ?_, ?_⟩
  · simp [get_evaluated_mesh_stats_run]
  · simp [get_evaluated_mesh_stats_run]
  · cases obj_is_mesh with
    | false => simp [validate_mesh_manifold_run]
    | true =>
        by_cases hmode : s2.mode = "EDIT"
        · simp [validate_mesh_manifold_run, hmode]
        · simp [validate_mesh_manifold_run, hmode]
  · cases obj_is_mesh with
    | false => simp [validate_mesh_manifold_run]
    | true =>
        by_cases hmode : s2.mode = "EDIT"
        · simp [validate_mesh_manifold_run, hmode]
        · simp [validate_mesh_manifold_run, hmode]

/-- C10: when every non-square image in the context has a non-zero height,
`validate_texture_aspect_ratio` returns (without raising) exactly one
message per non-square image, in list order, and the empty list exactly
when all images are square; the message computation divides width by
height, so a non-square image of zero height raises ZeroDivisionError,
which is why the condition is required for totality. -/
theorem C10_aspect_check_total (ctx : ValidationContext)
    (h : ∀ i ∈ ctx.images, i.size.1 ≠ i.size.2 → i.size.2 ≠ 0) :
    validate_texture_aspect ctx =
      Except.ok ((ctx.images.filter (fun i => i.size.1 != i.size.2)).map aspect_msg)
    ∧ ((ctx.images.filter (fun i => i.size.1 != i.size.2)).map aspect_msg).length
        = (ctx.images.filter (fun i => i.size.1 != i.size.2)).length
    ∧ (((ctx.images.filter (fun i => i.size.1 != i.size.2)).map aspect_msg) = []
        ↔ ∀ i ∈ ctx.images, i.size.1 = i.size.2)
    ∧ validate_texture_aspect ctx_zero_height = Except.error PyErr.zeroDivisionError := by
  refine ⟨?_, List.length_map _ _, ?_, rfl⟩
  · have hloop := aspect_loop_ok ctx.images h []
    simpa [validate_texture_aspect] using hloop
  · rw [List.map_eq_nil_iff, List.filter_eq_nil_iff]
    constructor
    · intro hnone i hi
      have hne := hnone i hi
      simpa using hne
    · intro hall i hi
      simpa using hall i hi

/-- C10 witness: one square and one wide image, both of non-zero height. -/
theorem C10_aspect_check_total_witness :
    validate_texture_aspect ctx_mixed =
      Except.ok ((ctx_mixed.images.filter (fun i => i.size.1 != i.size.2)).map aspect_msg) :=
  (C10_aspect_check_total ctx_mixed (by decide)).1

end AssetForge
